import Mathlib

/-!
Shallow embedding of the face-verification core of
`src/backend/barcode_scanner.py` (attendance system).

The external capabilities are modelled as data:
a video source is `Option (List Frame)` (`none` = the container cannot be
opened, mirroring `cv2.VideoCapture` with `isOpened() = false`); a `Frame`
carries the list of faces the opaque locator/encoder capability would return
for it (bounding box in css order `top, right, bottom, left` plus the
embedding vector); the distance metric of `face_recognition.face_distance`
is an injected function; the JSON backing file of the reference store is
`DBFile` (missing, corrupt, or holding a database); the success of
`save_face_db` is an injected boolean.  Store I/O performed by a call is
reported in an `Effects` record (number of loads, list of attempted saves).
Machine floats are modelled over `ℚ`.
-/

namespace Attendance

/-- An embedding vector: a fixed-length sequence of numbers (`ℚ` models the
floating-point values). -/
abbrev Embedding := List ℚ

/-- One detected face: bounding box in the css order returned by
`face_recognition.face_locations`, together with its encoding. -/
structure Face where
  top : ℤ
  right : ℤ
  bottom : ℤ
  left : ℤ
  enc : Embedding
deriving DecidableEq

/-- A decoded frame, as seen through the opaque locator capability: the list
of faces detected on it (paired with their encodings, as
`face_recognition.face_encodings` returns one encoding per location). -/
abbrev Frame := List Face

/-- `ROLL_REGEX = ^\d{9}$` : the barcode must be exactly nine digits. -/
def ROLL_REGEX_match (s : String) : Bool :=
  s.data.length == 9 && s.data.all Char.isDigit

/-- `SIMILARITY_THRESHOLD = 0.4`, written as the reduced fraction `2 / 5` in
normal form so that the kernel can evaluate comparisons against it (the
sanity example below checks it is the literal `0.4`). -/
def SIMILARITY_THRESHOLD : ℚ := ⟨2, 5, by norm_num, by norm_num⟩

example : SIMILARITY_THRESHOLD = 0.4 := by
  rw [Rat.eq_iff_mul_eq_mul]
  norm_num [SIMILARITY_THRESHOLD]

/-- `MAX_FRAMES_TO_CHECK = 20`. -/
def MAX_FRAMES_TO_CHECK : Nat := 20

/-- `FRAME_SKIP = 2`. -/
def FRAME_SKIP : Nat := 2

/-- The reference store: a mapping from identifier to embedding, in insertion
order (a Python dict serialised as a JSON object). -/
abbrev FaceDB := List (String × Embedding)

/-- The state of the JSON backing file read by `load_face_db`. -/
inductive DBFile where
  | missing
  | corrupt
  | good (db : FaceDB)
deriving DecidableEq

/-- `load_face_db`: missing file and corrupt JSON both degrade to the empty
mapping; otherwise the stored mapping is returned. -/
def load_face_db : DBFile → FaceDB
  | .missing => []
  | .corrupt => []
  | .good db => db

/-- `face_area = (bottom - top) * (right - left)`. -/
def faceArea (f : Face) : ℤ := (f.bottom - f.top) * (f.right - f.left)

/-- The body of the inner `for` loop of `extract_best_face_from_video`:
keep the running `(best_quality, best_encoding)` pair, replacing it when a
face has strictly larger area. -/
def scanFace (acc : ℤ × Option Embedding) (f : Face) : ℤ × Option Embedding :=
  if faceArea f > acc.1 then (faceArea f, some f.enc) else acc

/-- Processing of one analysed frame: fold `scanFace` over its detected
faces (an empty face list leaves the accumulator unchanged, like the
`continue` branches of the source). -/
def scanFrame (fr : Frame) (acc : ℤ × Option Embedding) : ℤ × Option Embedding :=
  fr.foldl scanFace acc

/-- The `while frames_checked < MAX_FRAMES_TO_CHECK` loop of
`extract_best_face_from_video`: reads frames in order, stops on exhaustion
or when the cap of analysed frames is reached, skips a decoded frame unless
its 1-based count is divisible by `FRAME_SKIP`, and folds `scanFrame` over
the analysed frames. -/
def extractGo : List Frame → Nat → Nat → ℤ × Option Embedding → ℤ × Option Embedding
  | [], _, _, acc => acc
  | f :: rest, framesChecked, frameCount, acc =>
    if framesChecked < MAX_FRAMES_TO_CHECK then
      if (frameCount + 1) % FRAME_SKIP ≠ 0 then
        extractGo rest framesChecked (frameCount + 1) acc
      else
        extractGo rest (framesChecked + 1) (frameCount + 1) (scanFrame f acc)
    else acc

/-- `extract_best_face_from_video`: `none` (unopenable source) and
no-selected-face both yield `(none, false)`; otherwise the best encoding
with `true`. -/
def extract_best_face_from_video (video : Option (List Frame)) :
    Option Embedding × Bool :=
  match video with
  | none => (none, false)
  | some frames =>
    match (extractGo frames 0 0 (0, none)).2 with
    | some best_encoding => (some best_encoding, true)
    | none => (none, false)

/-- The closed set of outcome statuses of the engine (`NO_RECORD` occurs
only in the non-auto-enrolling configuration of the spec). -/
inductive Status where
  | VALID
  | FACE_MISMATCH
  | NO_FACE
  | NO_RECORD
  | INVALID_FORMAT
  | ERROR
deriving DecidableEq

/-- The result dictionary of `verify_face`; keys that a branch omits are
`none` / `false` here. -/
structure Outcome where
  ok : Bool
  status : Status
  roll_no : String
  distance : Option ℚ
  enrolled : Bool
  message : Option String
deriving DecidableEq

/-- Store I/O performed during one call: how many times the store was
loaded, and the list of databases passed to `save_face_db` (in order). -/
structure Effects where
  loads : Nat
  saves : List FaceDB
deriving DecidableEq

/-- `verify_face(barcode, video_path)`.  Environment data made explicit:
`dist` is the injected distance capability, `dbfile` the backing file state,
`saveOk` whether `save_face_db` succeeds, `videoExists` the result of
`os.path.exists(video_path)`, `video` the openable content of the path. -/
def verify_face (dist : Embedding → Embedding → ℚ) (dbfile : DBFile)
    (saveOk : Bool) (barcode : String) (videoExists : Bool)
    (video : Option (List Frame)) : Outcome × Effects :=
  if ROLL_REGEX_match barcode = false then
    ({ ok := false, status := .INVALID_FORMAT, roll_no := barcode,
       distance := none, enrolled := false, message := none }, ⟨0, []⟩)
  else if videoExists = false then
    ({ ok := false, status := .ERROR, roll_no := barcode,
       distance := none, enrolled := false,
       message := some "Video file not found" }, ⟨0, []⟩)
  else
    let face_db := load_face_db dbfile
    match face_db.lookup barcode with
    | none =>
      match extract_best_face_from_video video with
      | (some face_encoding, true) =>
        let face_db2 := face_db ++ [(barcode, face_encoding)]
        if saveOk = false then
          ({ ok := false, status := .ERROR, roll_no := barcode,
             distance := none, enrolled := false,
             message := some "Failed to save enrollment" }, ⟨1, [face_db2]⟩)
        else
          ({ ok := true, status := .VALID, roll_no := barcode,
             distance := some 0, enrolled := true, message := none },
           ⟨1, [face_db2]⟩)
      | _ =>
        ({ ok := false, status := .NO_FACE, roll_no := barcode,
           distance := none, enrolled := false, message := none }, ⟨1, []⟩)
    | some stored_embedding =>
      match extract_best_face_from_video video with
      | (some live_encoding, true) =>
        let distance := dist stored_embedding live_encoding
        if distance < SIMILARITY_THRESHOLD then
          ({ ok := true, status := .VALID, roll_no := barcode,
             distance := some distance, enrolled := false, message := none },
           ⟨1, []⟩)
        else
          ({ ok := false, status := .FACE_MISMATCH, roll_no := barcode,
             distance := some distance, enrolled := false, message := none },
           ⟨1, []⟩)
      | _ =>
        ({ ok := false, status := .NO_FACE, roll_no := barcode,
           distance := none, enrolled := false, message := none }, ⟨1, []⟩)

/-- A distance capability for concrete witnesses that always reports the
threshold value itself (the capability is injected, so any function is a
legitimate instance). -/
def distAtThreshold (_ _ : Embedding) : ℚ := SIMILARITY_THRESHOLD

example : ROLL_REGEX_match "123456789" = true := by decide
example : ROLL_REGEX_match "12AB" = false := by decide
example : ROLL_REGEX_match "1234567890" = false := by decide
example :
    extract_best_face_from_video (some [[], [⟨0, 1, 1, 0, [3]⟩]]) =
      (some [3], true) := by decide
example : extract_best_face_from_video (some [[⟨0, 1, 1, 0, [1]⟩]]) =
    (none, false) := by decide
example :
    (verify_face distAtThreshold (.good [("123456789", [0])]) true "123456789"
      true (some [[], [⟨0, 1, 1, 0, [3]⟩]])).1.status =
      Status.FACE_MISMATCH := by
  decide

/-! ### Frame sampling: every second decoded frame, capped at twenty -/

/-- Every second element of a list: the elements at even 1-based positions,
which are exactly the decoded frames passing the `frame_count % FRAME_SKIP`
test of the loop. -/
def everySecond {α : Type _} : List α → List α
  | [] => []
  | [_] => []
  | _ :: b :: rest => b :: everySecond rest

/-- The frames the loop actually analyses: every second decoded frame, capped
at `MAX_FRAMES_TO_CHECK`. -/
def sampledFrames (v : List Frame) : List Frame :=
  (everySecond v).take MAX_FRAMES_TO_CHECK

/-- Folding the per-frame scan over a list of frames. -/
def foldFrames (fs : List Frame) (acc : ℤ × Option Embedding) :
    ℤ × Option Embedding :=
  fs.foldl (fun acc f => scanFrame f acc) acc

/-- The frames selected by the stride test of the loop when the decoded-frame
counter currently stands at `k`. -/
def strideSel : Nat → List Frame → List Frame
  | _, [] => []
  | k, f :: rest =>
    if (k + 1) % FRAME_SKIP = 0 then f :: strideSel (k + 1) rest
    else strideSel (k + 1) rest

theorem strideSel_add_two (v : List Frame) :
    ∀ k, strideSel (k + 2) v = strideSel k v := by
  induction v with
  | nil => intro _; rfl
  | cons f rest ih =>
    intro k
    simp only [strideSel]
    have hmod : (k + 2 + 1) % FRAME_SKIP = (k + 1) % FRAME_SKIP := by
      simp only [FRAME_SKIP]
      omega
    rw [hmod, show k + 2 + 1 = k + 1 + 2 from by omega, ih (k + 1)]

theorem strideSel_zero (v : List Frame) : strideSel 0 v = everySecond v := by
  induction v using everySecond.induct with
  | case1 => rfl
  | case2 a => rfl
  | case3 a b rest ih =>
    show strideSel 0 (a :: b :: rest) = b :: everySecond rest
    have h1 : strideSel 0 (a :: b :: rest) = strideSel 1 (b :: rest) := by
      simp [strideSel, FRAME_SKIP]
    have h2 : strideSel 1 (b :: rest) = b :: strideSel 2 rest := by
      simp [strideSel, FRAME_SKIP]
    rw [h1, h2, show (2 : Nat) = 0 + 2 from rfl, strideSel_add_two, ih]

theorem everySecond_getElem {α : Type _} (v : List α) :
    ∀ i : Nat, (everySecond v)[i]? = v[2 * i + 1]? := by
  induction v using everySecond.induct with
  | case1 => intro i; rfl
  | case2 a =>
    intro i
    show ([] : List α)[i]? = [a][2 * i + 1]?
    rw [List.getElem?_eq_none (by simp)]
    rfl
  | case3 a b rest ih =>
    intro i
    cases i with
    | zero => simp [everySecond]
    | succ j =>
      show (b :: everySecond rest)[j + 1]? = (a :: b :: rest)[2 * (j + 1) + 1]?
      rw [show 2 * (j + 1) + 1 = 2 * j + 1 + 1 + 1 from by omega]
      rw [List.getElem?_cons_succ, List.getElem?_cons_succ,
        List.getElem?_cons_succ]
      exact ih j

theorem extractGo_eq_fold (v : List Frame) :
    ∀ (fc k : Nat) (acc : ℤ × Option Embedding), fc ≤ MAX_FRAMES_TO_CHECK →
      extractGo v fc k acc =
        foldFrames ((strideSel k v).take (MAX_FRAMES_TO_CHECK - fc)) acc := by
  induction v with
  | nil => intro fc k acc _; simp [extractGo, strideSel, foldFrames]
  | cons f rest ih =>
    intro fc k acc hfc
    rcases Nat.lt_or_ge fc MAX_FRAMES_TO_CHECK with hlt | hge
    · simp only [extractGo, if_pos hlt]
      by_cases hk : (k + 1) % FRAME_SKIP = 0
      · rw [if_neg (by simp [hk])]
        rw [show strideSel k (f :: rest) = f :: strideSel (k + 1) rest from
          by simp [strideSel, hk]]
        rw [show MAX_FRAMES_TO_CHECK - fc =
          MAX_FRAMES_TO_CHECK - (fc + 1) + 1 from by omega]
        rw [List.take_succ_cons]
        rw [show foldFrames (f :: (strideSel (k + 1) rest).take
              (MAX_FRAMES_TO_CHECK - (fc + 1))) acc =
            foldFrames ((strideSel (k + 1) rest).take
              (MAX_FRAMES_TO_CHECK - (fc + 1))) (scanFrame f acc) from rfl]
        exact ih (fc + 1) (k + 1) _ hlt
      · rw [if_pos hk]
        rw [show strideSel k (f :: rest) = strideSel (k + 1) rest from
          by simp [strideSel, hk]]
        exact ih fc (k + 1) acc hfc
    · rw [show extractGo (f :: rest) fc k acc = acc from by
        simp [extractGo, Nat.not_lt.mpr hge]]
      rw [show MAX_FRAMES_TO_CHECK - fc = 0 from by omega, List.take_zero]
      rfl

/-- The whole extraction equals a fold of the per-frame scan over the sampled
frames. -/
theorem extract_eq_sampled (v : List Frame) :
    extract_best_face_from_video (some v) =
      match (foldFrames (sampledFrames v) (0, none)).2 with
      | some e => (some e, true)
      | none => (none, false) := by
  have h := extractGo_eq_fold v 0 0 (0, none) (Nat.zero_le _)
  rw [strideSel_zero, Nat.sub_zero] at h
  simp only [extract_best_face_from_video, h, sampledFrames]

/-! ### Best-candidate selection: first face attaining the maximum area -/

/-- Folding the per-face scan over a flat list of faces. -/
def foldFaces (l : List Face) (acc : ℤ × Option Embedding) :
    ℤ × Option Embedding :=
  l.foldl scanFace acc

theorem foldFrames_eq_foldFaces (fs : List Frame) (acc : ℤ × Option Embedding) :
    foldFrames fs acc = foldFaces fs.flatten acc := by
  rw [foldFaces, List.foldl_flatten]
  rfl

/-- The selection predicate, in the words of the spec: a face whose area
strictly exceeds the starting quality `q` and is not exceeded by any face of
the list. -/
def bestPred (q : ℤ) (l : List Face) (f : Face) : Bool :=
  decide (q < faceArea f) && l.all (fun g => decide (faceArea g ≤ faceArea f))

theorem find?_congr {α : Type _} (p q : α → Bool) :
    ∀ l : List α, (∀ x ∈ l, p x = q x) → l.find? p = l.find? q := by
  intro l
  induction l with
  | nil => intro _; rfl
  | cons a l ih =>
    intro h
    have ha := h a (by simp)
    cases hpa : p a with
    | true =>
      rw [List.find?_cons_of_pos _ hpa,
        List.find?_cons_of_pos _ (show q a from by rw [← ha]; exact hpa)]
    | false =>
      rw [List.find?_cons_of_neg _ (by simp [hpa]),
        List.find?_cons_of_neg _ (by simp [← ha, hpa])]
      exact ih (fun x hx => h x (by simp [hx]))

theorem exists_max_face : ∀ l : List Face, l ≠ [] →
    ∃ m ∈ l, ∀ g ∈ l, faceArea g ≤ faceArea m := by
  intro l
  induction l with
  | nil => intro h; exact absurd rfl h
  | cons a l ih =>
    intro _
    rcases eq_or_ne l [] with rfl | hne
    · exact ⟨a, by simp⟩
    · obtain ⟨m, hm, hmax⟩ := ih hne
      rcases le_or_lt (faceArea a) (faceArea m) with hle | hlt
      · refine ⟨m, by simp [hm], ?_⟩
        intro g hg
        rcases List.mem_cons.mp hg with rfl | hg
        · exact hle
        · exact hmax g hg
      · refine ⟨a, by simp, ?_⟩
        intro g hg
        rcases List.mem_cons.mp hg with rfl | hg
        · exact le_refl _
        · exact le_of_lt (lt_of_le_of_lt (hmax g hg) hlt)

/-- The fold of the loop body over a flat face list selects exactly the first
face whose area beats the starting quality and every face of the list. -/
theorem foldFaces_eq_find (l : List Face) :
    ∀ (q : ℤ) (e : Option Embedding),
      foldFaces l (q, e) =
        match l.find? (bestPred q l) with
        | some f => (faceArea f, some f.enc)
        | none => (q, e) := by
  induction l with
  | nil => intro q e; rfl
  | cons f rest ih =>
    intro q e
    rw [show foldFaces (f :: rest) (q, e) = foldFaces rest (scanFace (q, e) f)
      from rfl]
    by_cases hf : q < faceArea f
    · have hscan : scanFace (q, e) f = (faceArea f, some f.enc) := by
        simp [scanFace, hf]
      by_cases hall : rest.all (fun g => decide (faceArea g ≤ faceArea f)) = true
      · have hpred : bestPred q (f :: rest) f = true := by
          simp only [bestPred, List.all_cons]
          simp [hf, hall]
        rw [List.find?_cons_of_pos _ hpred, hscan, ih]
        have hnone : rest.find? (bestPred (faceArea f) rest) = none := by
          rw [List.find?_eq_none]
          intro x hx
          have hxle : faceArea x ≤ faceArea f := by
            have := List.all_eq_true.mp hall x hx
            simpa using this
          simp [bestPred]
          intro hgt
          omega
        rw [hnone]
      · have hall' : rest.all (fun g => decide (faceArea g ≤ faceArea f))
            = false := by
          rwa [Bool.not_eq_true] at hall
        have hex : ∃ g ∈ rest, faceArea f < faceArea g := by
          by_contra hc
          push_neg at hc
          exact hall (List.all_eq_true.mpr (fun x hx => by
            simp [hc x hx]))
        obtain ⟨g0, hg0, hfg0⟩ := hex
        obtain ⟨m, hm, hmax⟩ :=
          exists_max_face rest (by intro hr; rw [hr] at hg0; cases hg0)
        have hfm : faceArea f < faceArea m :=
          lt_of_lt_of_le hfg0 (hmax g0 hg0)
        have hpred : bestPred q (f :: rest) f = false := by
          simp only [bestPred, List.all_cons]
          simp [hall']
        rw [List.find?_cons_of_neg _ (by simp [hpred]), hscan, ih]
        have hcg : ∀ x ∈ rest,
            bestPred (faceArea f) rest x = bestPred q (f :: rest) x := by
          intro x hx
          by_cases hxall :
              rest.all (fun g => decide (faceArea g ≤ faceArea x)) = true
          · have hmx : faceArea m ≤ faceArea x := by
              have := List.all_eq_true.mp hxall m hm
              simpa using this
            have hfx : faceArea f < faceArea x := lt_of_lt_of_le hfm hmx
            have hqx : q < faceArea x := lt_trans hf hfx
            simp only [bestPred, List.all_cons]
            simp [hxall, hfx, hqx, le_of_lt hfx]
          · have hxall' : rest.all (fun g => decide (faceArea g ≤ faceArea x))
                = false := by rwa [Bool.not_eq_true] at hxall
            simp only [bestPred, List.all_cons]
            simp [hxall']
        rw [find?_congr _ _ rest hcg]
        have hsome : (rest.find? (bestPred q (f :: rest))).isSome := by
          rw [List.find?_isSome]
          refine ⟨m, hm, ?_⟩
          simp only [bestPred, List.all_cons]
          simp [lt_trans hf hfm, le_of_lt hfm]
          intro x hx
          exact hmax x hx
        obtain ⟨g, hg⟩ := Option.isSome_iff_exists.mp hsome
        rw [hg]
    · have hscan : scanFace (q, e) f = (q, e) := by
        simp [scanFace, hf]
      rw [hscan, ih q e]
      have hpred : bestPred q (f :: rest) f = false := by
        simp [bestPred, hf]
      rw [List.find?_cons_of_neg _ (by simp [hpred])]
      have hcg : ∀ x ∈ rest, bestPred q rest x = bestPred q (f :: rest) x := by
        intro x hx
        by_cases hq : q < faceArea x
        · have hfx : faceArea f ≤ faceArea x := by omega
          simp only [bestPred, List.all_cons]
          simp [hq, hfx]
        · simp [bestPred, hq]
      rw [find?_congr _ _ rest hcg]

/-- The selector described by the words of the spec: the first detected face
whose (positive) area is the maximum over all detected faces of the sampled
frames. -/
def specSelect (l : List Face) : Option Face :=
  l.find? (bestPred 0 l)

/-- Modelled from the spec: the Verification/Enrollment Engine with the
explicit `autoEnroll` switch of spec sections 4.3 and 6.  The repository
holds two successive engine designs and the variant without auto-enrollment
is not among the sources under review, so its behaviour follows the
transition table of the spec: identifier format, then video availability,
then store lookup; an absent identifier yields `NO_RECORD` when the switch
is off, and the enrollment path when it is on. -/
def verify_or_enroll (autoEnroll : Bool) (dist : Embedding → Embedding → ℚ)
    (dbfile : DBFile) (saveOk : Bool) (barcode : String)
    (videoExists : Bool) (video : Option (List Frame)) : Outcome × Effects :=
  if ROLL_REGEX_match barcode = false then
    ({ ok := false, status := .INVALID_FORMAT, roll_no := barcode,
       distance := none, enrolled := false, message := none }, ⟨0, []⟩)
  else if videoExists = false then
    ({ ok := false, status := .ERROR, roll_no := barcode,
       distance := none, enrolled := false,
       message := some "Video file not found" }, ⟨0, []⟩)
  else
    match video with
    | none =>
      ({ ok := false, status := .ERROR, roll_no := barcode,
         distance := none, enrolled := false,
         message := some "Video source unreadable" }, ⟨0, []⟩)
    | some frames =>
      let face_db := load_face_db dbfile
      match face_db.lookup barcode with
      | none =>
        if autoEnroll = false then
          ({ ok := false, status := .NO_RECORD, roll_no := barcode,
             distance := none, enrolled := false, message := none }, ⟨1, []⟩)
        else
          match extract_best_face_from_video (some frames) with
          | (some face_encoding, true) =>
            let face_db2 := face_db ++ [(barcode, face_encoding)]
            if saveOk = false then
              ({ ok := false, status := .ERROR, roll_no := barcode,
                 distance := none, enrolled := false,
                 message := some "Failed to save enrollment" },
               ⟨1, [face_db2]⟩)
            else
              ({ ok := true, status := .VALID, roll_no := barcode,
                 distance := some 0, enrolled := true, message := none },
               ⟨1, [face_db2]⟩)
          | _ =>
            ({ ok := false, status := .NO_FACE, roll_no := barcode,
               distance := none, enrolled := false, message := none },
             ⟨1, []⟩)
      | some stored_embedding =>
        match extract_best_face_from_video (some frames) with
        | (some live_encoding, true) =>
          let distance := dist stored_embedding live_encoding
          if distance < SIMILARITY_THRESHOLD then
            ({ ok := true, status := .VALID, roll_no := barcode,
               distance := some distance, enrolled := false, message := none },
             ⟨1, []⟩)
          else
            ({ ok := false, status := .FACE_MISMATCH, roll_no := barcode,
               distance := some distance, enrolled := false, message := none },
             ⟨1, []⟩)
        | _ =>
          ({ ok := false, status := .NO_FACE, roll_no := barcode,
             distance := none, enrolled := false, message := none }, ⟨1, []⟩)

theorem lookup_append_self (db : FaceDB) (a : String) (b : Embedding)
    (h : db.lookup a = none) : (db ++ [(a, b)]).lookup a = some b := by
  rw [List.lookup_append, h]
  simp

/-! ### Claims -/

/-- C1: for an enrolled identifier whose video yields a best candidate
embedding, `verify_face` returns VALID with ok = true when the computed
distance is strictly below `SIMILARITY_THRESHOLD` and FACE_MISMATCH with
ok = false when the distance is greater than or equal to it (in particular a
distance exactly at the threshold mismatches), and both outcomes carry the
computed distance. -/
theorem threshold_decision (dist : Embedding → Embedding → ℚ)
    (dbfile : DBFile) (saveOk : Bool) (barcode : String)
    (video : Option (List Frame)) (stored live : Embedding)
    (hfmt : ROLL_REGEX_match barcode = true)
    (hdb : (load_face_db dbfile).lookup barcode = some stored)
    (hext : extract_best_face_from_video video = (some live, true)) :
    (dist stored live < SIMILARITY_THRESHOLD →
      verify_face dist dbfile saveOk barcode true video =
        ({ ok := true, status := .VALID, roll_no := barcode,
           distance := some (dist stored live), enrolled := false,
           message := none }, ⟨1, []⟩)) ∧
    (SIMILARITY_THRESHOLD ≤ dist stored live →
      verify_face dist dbfile saveOk barcode true video =
        ({ ok := false, status := .FACE_MISMATCH, roll_no := barcode,
           distance := some (dist stored live), enrolled := false,
           message := none }, ⟨1, []⟩)) := by
  constructor
  · intro hlt
    simp [verify_face, hfmt, hdb, hext, hlt]
  · intro hge
    simp [verify_face, hfmt, hdb, hext, not_lt.mpr hge]

/-- Witness for C1, at the boundary: a concrete enrolled identifier and a
distance capability reporting exactly the threshold yield FACE_MISMATCH. -/
theorem threshold_decision_witness :
    ROLL_REGEX_match "123456789" = true ∧
    (load_face_db (.good [("123456789", [0])])).lookup "123456789"
      = some [0] ∧
    extract_best_face_from_video (some [[], [⟨0, 1, 1, 0, [3]⟩]])
      = (some [3], true) ∧
    SIMILARITY_THRESHOLD ≤ distAtThreshold [0] [3] ∧
    verify_face distAtThreshold (.good [("123456789", [0])]) true "123456789"
        true (some [[], [⟨0, 1, 1, 0, [3]⟩]]) =
      ({ ok := false, status := .FACE_MISMATCH, roll_no := "123456789",
         distance := some SIMILARITY_THRESHOLD, enrolled := false,
         message := none }, ⟨1, []⟩) :=
  ⟨by decide, by decide, by decide, by decide,
    (threshold_decision distAtThreshold (.good [("123456789", [0])]) true
      "123456789" (some [[], [⟨0, 1, 1, 0, [3]⟩]]) [0] [3] (by decide)
      (by decide) (by decide)).2 (by decide)⟩

/-- C2: a barcode failing the nine-digit pattern is rejected with status
INVALID_FORMAT and ok = false, with zero store loads and zero store saves. -/
theorem invalid_format_no_store (dist : Embedding → Embedding → ℚ)
    (dbfile : DBFile) (saveOk : Bool) (barcode : String) (videoExists : Bool)
    (video : Option (List Frame))
    (hfmt : ROLL_REGEX_match barcode = false) :
    verify_face dist dbfile saveOk barcode videoExists video =
      ({ ok := false, status := .INVALID_FORMAT, roll_no := barcode,
         distance := none, enrolled := false, message := none },
       ⟨0, []⟩) := by
  simp [verify_face, hfmt]

/-- Witness for C2 at the non-numeric identifier of the spec scenario. -/
theorem invalid_format_no_store_witness :
    ROLL_REGEX_match "12AB" = false ∧
    verify_face distAtThreshold (.good []) true "12AB" true none =
      ({ ok := false, status := .INVALID_FORMAT, roll_no := "12AB",
         distance := none, enrolled := false, message := none },
       ⟨0, []⟩) :=
  ⟨by decide,
    invalid_format_no_store distAtThreshold (.good []) true "12AB" true none
      (by decide)⟩

/-- C3: a valid-format identifier absent from the store, with a best
candidate extracted and a successful save, yields ok = true, VALID,
enrolled = true, distance 0.0, and exactly one save whose content is the old
store plus one new entry mapping the identifier to the candidate embedding
(which the extended store then reports on lookup); a failing save yields
ERROR instead. -/
theorem auto_enroll_outcome (dist : Embedding → Embedding → ℚ)
    (dbfile : DBFile) (saveOk : Bool) (barcode : String)
    (video : Option (List Frame)) (enc : Embedding)
    (hfmt : ROLL_REGEX_match barcode = true)
    (hdb : (load_face_db dbfile).lookup barcode = none)
    (hext : extract_best_face_from_video video = (some enc, true)) :
    (saveOk = true →
      verify_face dist dbfile saveOk barcode true video =
        ({ ok := true, status := .VALID, roll_no := barcode,
           distance := some 0, enrolled := true, message := none },
         ⟨1, [load_face_db dbfile ++ [(barcode, enc)]]⟩)) ∧
    (load_face_db dbfile ++ [(barcode, enc)]).lookup barcode = some enc ∧
    (saveOk = false →
      verify_face dist dbfile saveOk barcode true video =
        ({ ok := false, status := .ERROR, roll_no := barcode,
           distance := none, enrolled := false,
           message := some "Failed to save enrollment" },
         ⟨1, [load_face_db dbfile ++ [(barcode, enc)]]⟩)) := by
  refine ⟨?_, lookup_append_self _ _ _ hdb, ?_⟩
  · intro hs
    simp [verify_face, hfmt, hdb, hext, hs]
  · intro hs
    simp [verify_face, hfmt, hdb, hext, hs]

/-- Witness for C3: the spec scenario of an empty store and identifier
123456789, with a successful save. -/
theorem auto_enroll_outcome_witness :
    ROLL_REGEX_match "123456789" = true ∧
    (load_face_db (.good [])).lookup "123456789" = none ∧
    extract_best_face_from_video (some [[], [⟨0, 1, 1, 0, [3]⟩]])
      = (some [3], true) ∧
    verify_face distAtThreshold (.good []) true "123456789" true
        (some [[], [⟨0, 1, 1, 0, [3]⟩]]) =
      ({ ok := true, status := .VALID, roll_no := "123456789",
         distance := some 0, enrolled := true, message := none },
       ⟨1, [[("123456789", [3])]]⟩) :=
  ⟨by decide, by decide, by decide,
    (auto_enroll_outcome distAtThreshold (.good []) true "123456789"
      (some [[], [⟨0, 1, 1, 0, [3]⟩]]) [3] (by decide) (by decide)
      (by decide)).1 rfl⟩

/-- C4 (spec-modelled): the engine supports an explicit autoEnroll switch:
for a valid-format identifier absent from the store, with the switch off the
outcome is ok = false with status NO_RECORD and the store is not mutated,
and with the switch on the identifier is enrolled on first contact. -/
theorem auto_enroll_switch (dist : Embedding → Embedding → ℚ)
    (dbfile : DBFile) (barcode : String) (video : Option (List Frame))
    (enc : Embedding)
    (hfmt : ROLL_REGEX_match barcode = true)
    (hdb : (load_face_db dbfile).lookup barcode = none)
    (hext : extract_best_face_from_video video = (some enc, true)) :
    verify_or_enroll false dist dbfile true barcode true video =
      ({ ok := false, status := .NO_RECORD, roll_no := barcode,
         distance := none, enrolled := false, message := none }, ⟨1, []⟩) ∧
    verify_or_enroll true dist dbfile true barcode true video =
      ({ ok := true, status := .VALID, roll_no := barcode,
         distance := some 0, enrolled := true, message := none },
       ⟨1, [load_face_db dbfile ++ [(barcode, enc)]]⟩) := by
  cases video with
  | none => exact absurd hext (by simp [extract_best_face_from_video])
  | some frames =>
    constructor
    · simp [verify_or_enroll, hfmt, hdb]
    · simp [verify_or_enroll, hfmt, hdb, hext]

/-- Witness for C4: the spec scenario of an absent identifier with the
switch off (NO_RECORD) and on (first-contact enrollment). -/
theorem auto_enroll_switch_witness :
    ROLL_REGEX_match "999999999" = true ∧
    (load_face_db (.good [])).lookup "999999999" = none ∧
    extract_best_face_from_video (some [[], [⟨0, 1, 1, 0, [3]⟩]])
      = (some [3], true) ∧
    verify_or_enroll false distAtThreshold (.good []) true "999999999" true
        (some [[], [⟨0, 1, 1, 0, [3]⟩]]) =
      ({ ok := false, status := .NO_RECORD, roll_no := "999999999",
         distance := none, enrolled := false, message := none },
       ⟨1, []⟩) :=
  ⟨by decide, by decide, by decide,
    (auto_enroll_switch distAtThreshold (.good []) "999999999"
      (some [[], [⟨0, 1, 1, 0, [3]⟩]]) [3] (by decide) (by decide)
      (by decide)).1⟩

/-- C5 is refuted on the code: an existing but unopenable video source yields
status NO_FACE, not ERROR, because `extract_best_face_from_video` reports an
unopenable source exactly like a video with no detectable face; the claimed
ERROR occurs only for a missing video path.  Both the enrolled and the
absent identifier case are shown at a concrete input. -/
theorem unreadable_video_counterexample :
    (verify_face distAtThreshold (.good []) true "123456789" true
      none).1.status = Status.NO_FACE ∧
    (verify_face distAtThreshold (.good [("123456789", [0])]) true "123456789"
      true none).1.status = Status.NO_FACE ∧
    Status.NO_FACE ≠ Status.ERROR :=
  ⟨by decide, by decide, by decide⟩

/-- C5 (amended): for a valid-format identifier, a missing video path yields
ok = false with status ERROR carrying a message, while a video path that
exists but cannot be opened yields ok = false with status NO_FACE (never a
crash; the outcome is a structured value in every case). -/
theorem video_error_handling (dist : Embedding → Embedding → ℚ)
    (dbfile : DBFile) (saveOk : Bool) (barcode : String)
    (video : Option (List Frame))
    (hfmt : ROLL_REGEX_match barcode = true) :
    ((verify_face dist dbfile saveOk barcode false video).1.ok = false ∧
     (verify_face dist dbfile saveOk barcode false video).1.status = .ERROR ∧
     (verify_face dist dbfile saveOk barcode false video).1.message
       = some "Video file not found") ∧
    ((verify_face dist dbfile saveOk barcode true none).1.ok = false ∧
     (verify_face dist dbfile saveOk barcode true none).1.status
       = .NO_FACE) := by
  constructor
  · refine ⟨?_, ?_, ?_⟩ <;> simp [verify_face, hfmt]
  · cases hdb : (load_face_db dbfile).lookup barcode with
    | none =>
      constructor <;> simp [verify_face, hfmt, hdb, extract_best_face_from_video]
    | some s =>
      constructor <;> simp [verify_face, hfmt, hdb, extract_best_face_from_video]

/-- Witness for C5 (amended) at a concrete identifier and store. -/
theorem video_error_handling_witness :
    ROLL_REGEX_match "123456789" = true ∧
    (verify_face distAtThreshold (.good []) true "123456789" false
      none).1.status = Status.ERROR ∧
    (verify_face distAtThreshold (.good []) true "123456789" true
      none).1.status = Status.NO_FACE :=
  ⟨by decide,
    (video_error_handling distAtThreshold (.good []) true "123456789" none
      (by decide)).1.2.1,
    (video_error_handling distAtThreshold (.good []) true "123456789" none
      (by decide)).2.2⟩

/-- C6: for an identifier already present in the store, `verify_face` never
attempts a store save, so the stored reference is unchanged and, the call
being a pure function of its inputs, repeating the verification with the
same store and video yields the same outcome. -/
theorem enrolled_no_store_mutation (dist : Embedding → Embedding → ℚ)
    (dbfile : DBFile) (saveOk : Bool) (barcode : String) (videoExists : Bool)
    (video : Option (List Frame)) (stored : Embedding)
    (hdb : (load_face_db dbfile).lookup barcode = some stored) :
    (verify_face dist dbfile saveOk barcode videoExists video).2.saves
      = [] := by
  cases hfmt : ROLL_REGEX_match barcode with
  | false => simp [verify_face, hfmt]
  | true =>
    cases videoExists with
    | false => simp [verify_face, hfmt]
    | true =>
      rcases hext : extract_best_face_from_video video with ⟨e, s⟩
      rcases e with _ | enc
      · simp [verify_face, hfmt, hdb, hext]
      · cases s
        · simp [verify_face, hfmt, hdb, hext]
        · by_cases hcmp : dist stored enc < SIMILARITY_THRESHOLD
          · simp [verify_face, hfmt, hdb, hext, hcmp]
          · simp [verify_face, hfmt, hdb, hext, hcmp]

/-- Witness for C6 at a concrete enrolled identifier. -/
theorem enrolled_no_store_mutation_witness :
    (load_face_db (.good [("123456789", [0])])).lookup "123456789"
      = some [0] ∧
    (verify_face distAtThreshold (.good [("123456789", [0])]) true "123456789"
      true (some [[], [⟨0, 1, 1, 0, [3]⟩]])).2.saves = [] :=
  ⟨by decide,
    enrolled_no_store_mutation distAtThreshold (.good [("123456789", [0])])
      true "123456789" true (some [[], [⟨0, 1, 1, 0, [3]⟩]]) [0] (by decide)⟩

/-- C7 (amended): extraction is a one-pass fold over the sampled frames that
scores each detected face by bounding-box area (bottom − top)(right − left);
it returns the embedding of the first face attaining the maximum area
together with found = true when at least one detected face has positive
area (first-seen wins on equal area), and (none, found = false) otherwise —
in particular a detected face whose box area is not positive is never
selected, because the running best quality starts at 0 and is only replaced
by a strictly larger area. -/
theorem best_candidate_selection (v : List Frame) :
    extract_best_face_from_video (some v) =
      match specSelect (sampledFrames v).flatten with
      | some f => (some f.enc, true)
      | none => (none, false) := by
  rw [extract_eq_sampled, foldFrames_eq_foldFaces, foldFaces_eq_find]
  rcases h : ((sampledFrames v).flatten).find?
      (bestPred 0 (sampledFrames v).flatten) with _ | f
  · simp [specSelect, h]
  · simp [specSelect, h]

/-- C7 as stated is refuted at a concrete input: a sampled frame contains
one detected face, but its bounding box has zero area (top = bottom), so
extraction yields (none, found = false) although a face was detected in a
sampled frame. -/
theorem degenerate_face_counterexample :
    ((sampledFrames [[], [⟨0, 5, 0, 0, [7]⟩]]).flatten).length = 1 ∧
    extract_best_face_from_video (some [[], [⟨0, 5, 0, 0, [7]⟩]])
      = (none, false) :=
  ⟨by decide, by decide⟩

/-- C8: loading the reference store fails soft: a missing backing file and a
backing file with corrupt (non-parseable) content both load as the empty
mapping instead of raising. -/
theorem load_face_db_fails_soft :
    load_face_db DBFile.missing = [] ∧ load_face_db DBFile.corrupt = [] :=
  ⟨rfl, rfl⟩

/-- C9: the extraction loop terminates with a result fully determined by a
bounded sample: it analyses exactly the frames of `sampledFrames` — every
second decoded frame (the 1-based even positions, as the third conjunct
states) capped at MAX_FRAMES_TO_CHECK = 20 — stopping at source exhaustion
or at the cap (the release of the video resource is an external effect not
carried by this embedding). -/
theorem frame_sampler_bounded (v : List Frame) :
    (sampledFrames v).length ≤ MAX_FRAMES_TO_CHECK ∧
    extract_best_face_from_video (some v) =
      (match (foldFrames (sampledFrames v) (0, none)).2 with
       | some e => (some e, true)
       | none => (none, false)) ∧
    ∀ i : Nat, (everySecond v)[i]? = v[2 * i + 1]? := by
  refine ⟨?_, extract_eq_sampled v, everySecond_getElem v⟩
  simp only [sampledFrames, List.length_take]
  exact min_le_left _ _

/-- C10: the first decoded frame is never analysed, because its 1-based
count is not divisible by the stride; consequently a video from which
exactly one frame can be decoded yields (none, found = false) from
extraction and status NO_FACE from `verify_face`, even if that frame
contains a detectable face. -/
theorem single_frame_video_no_face (dist : Embedding → Embedding → ℚ)
    (dbfile : DBFile) (saveOk : Bool) (barcode : String) (f : Frame)
    (hfmt : ROLL_REGEX_match barcode = true) :
    extract_best_face_from_video (some [f]) = (none, false) ∧
    (verify_face dist dbfile saveOk barcode true (some [f])).1.status
      = Status.NO_FACE := by
  have hext : extract_best_face_from_video (some [f]) = (none, false) := by
    norm_num [extract_best_face_from_video, extractGo, MAX_FRAMES_TO_CHECK,
      FRAME_SKIP]
  refine ⟨hext, ?_⟩
  cases hdb : (load_face_db dbfile).lookup barcode with
  | none => simp [verify_face, hfmt, hdb, hext]
  | some s => simp [verify_face, hfmt, hdb, hext]

/-- Witness for C10: a single decodable frame that does contain a large
detectable face still produces NO_FACE. -/
theorem single_frame_video_no_face_witness :
    ROLL_REGEX_match "123456789" = true ∧
    ([⟨0, 10, 10, 0, [1]⟩] : Frame).length = 1 ∧
    extract_best_face_from_video (some [[⟨0, 10, 10, 0, [1]⟩]])
      = (none, false) ∧
    (verify_face distAtThreshold (.good []) true "123456789" true
      (some [[⟨0, 10, 10, 0, [1]⟩]])).1.status = Status.NO_FACE :=
  ⟨by decide, by decide,
    (single_frame_video_no_face distAtThreshold (.good []) true "123456789"
      [⟨0, 10, 10, 0, [1]⟩] (by decide)).1,
    (single_frame_video_no_face distAtThreshold (.good []) true "123456789"
      [⟨0, 10, 10, 0, [1]⟩] (by decide)).2⟩

end Attendance
